import Mathlib

/-!
Shallow embedding of the Sandbox Orchestrator of the `apptraining` repository.

The registry (`containers` table), exercise-progress table, the set of
runtime (Docker) containers carrying the training label, and the process-local
activity map are modelled as a single `SysState`.  SQL statements become pure
list operations, `CURRENT_TIMESTAMP` becomes an explicit `now : Nat`
parameter, and the nondeterministic inputs of a request (the generated
UUID subdomain, the runtime-assigned container id and host port, whether a
database write succeeds) become explicit arguments.  The event journal
(`system_logs`) is append-only and is not consulted by any of the verified
claims, so it is left out of the state.
-/

/-- Container status, `containers.status` column:
CHECK(status IN ('running', 'stopped', 'completed')). -/
inductive CStatus where
  | running
  | stopped
  | completed
  deriving DecidableEq, Repr

/-- Exercise progress status, `exercise_progress.status` column:
CHECK(status IN ('not_started', 'in_progress', 'completed')). -/
inductive PStatus where
  | not_started
  | in_progress
  | completed
  deriving DecidableEq, Repr

/-- One row of the `containers` table (src/db/init.js). -/
structure ContainerRecord where
  container_id : String
  image_id : Nat
  user_id : Nat
  subdomain : String
  status : CStatus
  host_port : String
  created_at : Nat
  deriving DecidableEq, Repr

/-- One row of the `exercise_progress` table (src/db/init.js);
UNIQUE(user_id, image_id). -/
structure ProgressRow where
  user_id : Nat
  image_id : Nat
  status : PStatus
  attempts : Nat
  completed_at : Option Nat
  deriving DecidableEq, Repr

/-- Orchestrator state: the `containers` rows, the `exercise_progress` rows,
the ids of runtime containers carrying the training labels, and the
subdomains present in the process-local `global.containerActivity` map. -/
structure SysState where
  registry : List ContainerRecord
  progress : List ProgressRow
  runtime : List String
  activity : List String
  deriving DecidableEq, Repr

/-- 24-hour retention for stopped rows, from the SQL literal
`datetime('now', '-24 hours')` in DockerService.cleanupResources. -/
def STOPPED_RETENTION_MS : Nat := 24 * 60 * 60 * 1000

/-- Suffix appended to a fresh subdomain in the launch response
(src/services/docker.js line 120). -/
def BASE_DOMAIN : String := ".apptraining.dbg.local"

/-- Per-user cap on running containers (literal `3` in
src/routes/containers.js line 72). -/
def MAX_PER_USER : Nat := 3

/-- DockerService.stopContainer (src/services/docker.js lines 128-196).
Stops and removes the runtime container (best effort), then runs
`UPDATE containers SET status = 'stopped' WHERE container_id = ?`
unconditionally, and evicts the activity entry of the record's subdomain. -/
def stopContainer (s : SysState) (cid : String) : SysState :=
  let runtime := s.runtime.filter (fun c => decide (¬ c = cid))
  let registry := s.registry.map (fun r =>
    if r.container_id = cid then { r with status := CStatus.stopped } else r)
  let activity :=
    match s.registry.find? (fun r => decide (r.container_id = cid)) with
    | some r => s.activity.filter (fun sub => decide (¬ sub = r.subdomain))
    | none => s.activity
  { s with runtime := runtime, registry := registry, activity := activity }

/-- DockerService.cleanupResources (src/services/docker.js lines 294-356).
Reads all registry rows first (`dbContainers`), deletes stopped rows older
than 24 hours, then force-removes runtime containers that have no row in the
pre-delete snapshot.  Pruning of exited runtime containers, networks and
volumes is outside the modelled state.  Note that rows marked running are
never updated, whether or not their runtime container exists. -/
def cleanupResources (s : SysState) (now : Nat) : SysState :=
  let dbContainers := s.registry
  let registry := s.registry.filter (fun r =>
    decide (¬ (r.status = CStatus.stopped ∧ r.created_at + STOPPED_RETENTION_MS < now)))
  let runtime := s.runtime.filter (fun cid =>
    (dbContainers.find? (fun r => decide (r.container_id = cid))).isSome)
  { s with registry := registry, runtime := runtime }

/-- Failure modes of DockerService.createContainer that the claims mention:
the image row is missing, or the registry INSERT fails. -/
inductive CreateErr where
  | imageNotFound
  | insertFailed
  deriving DecidableEq, Repr

/-- Successful launch payload: `containerId` and the full subdomain string. -/
structure CreateOk where
  containerId : String
  subdomain : String
  deriving DecidableEq, Repr

/-- DockerService.createContainer (src/services/docker.js lines 23-126).
`imageExists` models the `docker_images` lookup, `newCid`/`newSubdomain`/
`hostPort` the runtime-assigned id, the generated UUID and the ephemeral
port, `insertOk` whether the registry INSERT succeeds.  The runtime
container is created and started before the INSERT; on INSERT failure the
catch block only logs and rethrows, leaving the runtime container in place. -/
def createContainer (s : SysState) (imageId userId : Nat) (imageExists : Bool)
    (newCid newSubdomain hostPort : String) (insertOk : Bool) (now : Nat) :
    SysState × Except CreateErr CreateOk :=
  if imageExists = false then
    (s, Except.error CreateErr.imageNotFound)
  else
    let s1 := { s with runtime := s.runtime ++ [newCid] }
    if insertOk = false then
      (s1, Except.error CreateErr.insertFailed)
    else
      let newRecord : ContainerRecord :=
        { container_id := newCid, image_id := imageId, user_id := userId,
          subdomain := newSubdomain, status := CStatus.running,
          host_port := hostPort, created_at := now }
      let s2 := { s1 with
        registry := s1.registry ++ [newRecord],
        activity :=
          if newSubdomain ∈ s1.activity then s1.activity
          else s1.activity ++ [newSubdomain] }
      (s2, Except.ok { containerId := newCid, subdomain := newSubdomain ++ BASE_DOMAIN })

/-- Responses of POST /api/containers/launch/:imageId
(src/routes/containers.js lines 35-101). -/
inductive LaunchResp where
  | alreadyRunning (containerId subdomain : String)
  | quotaExceeded
  | launched (containerId subdomain : String)
  | internalError
  deriving DecidableEq, Repr

/-- HTTP status code of each launch response, from the res.status calls. -/
def launchStatus : LaunchResp → Nat
  | LaunchResp.alreadyRunning _ _ => 400
  | LaunchResp.quotaExceeded => 400
  | LaunchResp.launched _ _ => 200
  | LaunchResp.internalError => 500

/-- The exercise-progress upsert run after a successful launch
(src/routes/containers.js lines 83-94): INSERT OR REPLACE with
attempts = COALESCE(previous attempts + 1, 1), status 'in_progress',
and no value for completed_at, so the replaced row's completed_at is NULL. -/
def upsertProgress (progress : List ProgressRow) (u i : Nat) : List ProgressRow :=
  let attempts :=
    match progress.find? (fun p => decide (p.user_id = u ∧ p.image_id = i)) with
    | some p => p.attempts + 1
    | none => 1
  progress.filter (fun p => decide (¬ (p.user_id = u ∧ p.image_id = i))) ++
    [{ user_id := u, image_id := i, status := PStatus.in_progress,
       attempts := attempts, completed_at := none }]

/-- POST /api/containers/launch/:imageId (src/routes/containers.js
lines 35-101): first the already-running check for (user, image), then the
per-user running count against the cap of 3, then container creation and
the progress upsert. -/
def launchRoute (s : SysState) (userId imageId : Nat) (imageExists : Bool)
    (newCid newSubdomain hostPort : String) (insertOk : Bool) (now : Nat) :
    SysState × LaunchResp :=
  match s.registry.find? (fun r =>
      decide (r.user_id = userId ∧ r.image_id = imageId ∧ r.status = CStatus.running)) with
  | some existing =>
      (s, LaunchResp.alreadyRunning existing.container_id (existing.subdomain ++ BASE_DOMAIN))
  | none =>
      let runningCount := (s.registry.filter (fun r =>
        decide (r.user_id = userId ∧ r.status = CStatus.running))).length
      if MAX_PER_USER ≤ runningCount then
        (s, LaunchResp.quotaExceeded)
      else
        match createContainer s imageId userId imageExists newCid newSubdomain hostPort insertOk now with
        | (s1, Except.error _) => (s1, LaunchResp.internalError)
        | (s1, Except.ok info) =>
            let s2 := { s1 with progress := upsertProgress s1.progress userId imageId }
            (s2, LaunchResp.launched info.containerId info.subdomain)

/-- DockerService.handleExerciseCompletion (src/services/docker.js
lines 238-292).  Looks up the record by subdomain with any status; if
absent, throws with the state untouched.  Otherwise marks the progress row
of (user, image) completed with completed_at = now, and runs
`UPDATE containers SET status = 'completed' WHERE subdomain = ?`. -/
def handleExerciseCompletion (s : SysState) (sub : String) (now : Nat) :
    SysState × Except String Bool :=
  match s.registry.find? (fun r => decide (r.subdomain = sub)) with
  | none => (s, Except.error "Container not found")
  | some info =>
      let progress := s.progress.map (fun p =>
        if p.user_id = info.user_id ∧ p.image_id = info.image_id then
          { p with status := PStatus.completed, completed_at := some now }
        else p)
      let registry := s.registry.map (fun r =>
        if r.subdomain = sub then { r with status := CStatus.completed } else r)
      ({ s with progress := progress, registry := registry }, Except.ok true)

/-- POST /api/containers/:subdomain/complete (src/routes/containers.js
lines 133-142).  Any error thrown by the handler, including the
container-not-found error, is caught and answered with HTTP 500. -/
def completeRoute (s : SysState) (sub : String) (now : Nat) : SysState × Nat :=
  match handleExerciseCompletion s sub now with
  | (s1, Except.ok _) => (s1, 200)
  | (s1, Except.error _) => (s1, 500)

/-- Structural model of the JavaScript `String.prototype.split` with a
single-character separator; always returns a non-empty list of groups. -/
def splitOnChar (sep : Char) : List Char → List (List Char)
  | [] => [[]]
  | c :: cs =>
      let rest := splitOnChar sep cs
      if c = sep then [] :: rest
      else
        match rest with
        | [] => [[c]]
        | g :: gs => (c :: g) :: gs

/-- JavaScript `hostname.split(sep)` for a one-character separator. -/
def jsSplit (s : String) (sep : Char) : List String :=
  (splitOnChar sep s.toList).map (fun g => String.mk g)

/-- extractSubdomain (src/routes/auth.js lines 291-294): the leftmost
dot-separated label when the hostname has more than two labels, else null. -/
def extractSubdomain (hostname : String) : Option String :=
  match jsSplit hostname '.' with
  | [] => none
  | p :: rest => if 2 ≤ rest.length then some p else none

/-- Hexadecimal digit, either case. -/
def isHexDigit (c : Char) : Bool :=
  decide (('0' ≤ c ∧ c ≤ '9') ∨ ('a' ≤ c ∧ c ≤ 'f') ∨ ('A' ≤ c ∧ c ≤ 'F'))

/-- UUID version nibble accepted by the `uuid` package regex: 1 through 5. -/
def isUuidVersionChar (c : Char) : Bool :=
  decide (c = '1' ∨ c = '2' ∨ c = '3' ∨ c = '4' ∨ c = '5')

/-- UUID variant nibble accepted by the `uuid` package regex: 8, 9, a, b,
case-insensitively. -/
def isUuidVariantChar (c : Char) : Bool :=
  decide (c = '8' ∨ c = '9' ∨ c = 'a' ∨ c = 'b' ∨ c = 'A' ∨ c = 'B')

/-- A dash-free group of exactly `n` hex digits. -/
def hexGroup (g : String) (n : Nat) : Bool :=
  decide (g.toList.length = n) && g.toList.all isHexDigit

/-- The nil UUID, accepted verbatim by the `uuid` package`s validator. -/
def NIL_UUID : String := "00000000-0000-0000-0000-000000000000"

/-- `validate` of the npm `uuid` package, imported as `validateUUID` in
src/routes/auth.js.  Its regex accepts 8-4-4-4-12 hex with a version
nibble in [1-5] and a variant nibble in [89ab] case-insensitively, or the
nil UUID; it is NOT restricted to version 4. -/
def validateUUID (s : String) : Bool :=
  (match jsSplit s '-' with
   | [g1, g2, g3, g4, g5] =>
       hexGroup g1 8 && hexGroup g2 4 && hexGroup g3 4 && hexGroup g4 4 &&
       hexGroup g5 12 &&
       isUuidVersionChar (g3.toList.headD ' ') &&
       isUuidVariantChar (g4.toList.headD ' ')
   | _ => false)
  || decide (s = NIL_UUID)

/-- Spec-side definition of a UUIDv4 string, following the claim`s words:
8-4-4-4-12 hex with version nibble exactly 4 and an RFC 4122 variant. -/
def isUUIDv4 (s : String) : Bool :=
  match jsSplit s '-' with
  | [g1, g2, g3, g4, g5] =>
      hexGroup g1 8 && hexGroup g2 4 && hexGroup g3 4 && hexGroup g4 4 &&
      hexGroup g5 12 &&
      decide (g3.toList.headD ' ' = '4') &&
      isUuidVariantChar (g4.toList.headD ' ')
  | _ => false

/-- Outcome of the subdomain middleware for one request. -/
inductive RouteOutcome where
  | next
  | notFound (subdomain : String)
  | proxy (target : String)
  deriving DecidableEq, Repr

/-- createSubdomainHandler (src/routes/auth.js lines 318-344): extract the
leftmost label; pass through unless it is present and validates as a UUID;
look up a running record by subdomain; absent means a 404 response with
body error 'Container not found or not running' plus the subdomain, present
means proxying to localhost at the record's host port. -/
def subdomainHandler (s : SysState) (hostname : String) : RouteOutcome :=
  match extractSubdomain hostname with
  | none => RouteOutcome.next
  | some sub =>
      if validateUUID sub = false then RouteOutcome.next
      else
        match s.registry.find? (fun r =>
            decide (r.subdomain = sub ∧ r.status = CStatus.running)) with
        | none => RouteOutcome.notFound sub
        | some c => RouteOutcome.proxy ("http://localhost:" ++ c.host_port)

/-- Parsed metadata.json fields interpreted by the upload route; absent
fields are `none`.  Fields of non-string JSON types are outside the model
(they are rejected by the route via a thrown TypeError in the same catch). -/
structure Metadata where
  title : Option String
  description : Option String
  level : Option String
  version : Option String
  deriving DecidableEq, Repr

/-- JavaScript truthiness of an optional string: absent and empty are falsy. -/
def jsTruthy : Option String → Bool
  | none => false
  | some v => decide (¬ v = "")

/-- JavaScript `toLowerCase` restricted to ASCII, which is all the claims
exercise; `Char.toLower` maps A-Z to a-z and fixes everything else. -/
def jsToLowerCase (s : String) : String :=
  String.mk (s.toList.map Char.toLower)

/-- The validLevels array of the upload route. -/
def validLevels : List String := ["beginner", "intermediate", "advanced"]

/-- Whitespace characters of the JavaScript regex class used in
`replace(/\s+/g, '-')`; the claims only exercise ASCII whitespace. -/
def isJsWhitespace (c : Char) : Bool :=
  decide (c = ' ' ∨ c = '\t' ∨ c = '\n' ∨ c = '\r' ∨ c = '\x0b' ∨ c = '\x0c')

/-- Replace each maximal run of whitespace by a single dash; the `Bool`
argument records whether the previous character belonged to a run. -/
def collapseWsAux : Bool → List Char → List Char
  | _, [] => []
  | prevWs, c :: cs =>
      if isJsWhitespace c then
        if prevWs then collapseWsAux true cs
        else '-' :: collapseWsAux true cs
      else c :: collapseWsAux false cs

/-- JavaScript `replace(/\s+/g, '-')`. -/
def replaceWsRuns (s : String) : String :=
  String.mk (collapseWsAux false s.toList)

/-- The slug computed by the upload route (src, unnamed exercises-router
file, line 196): `metadata.title.toLowerCase().replace(/\s+/g, '-')`. -/
def slug (title : String) : String :=
  replaceWsRuns (jsToLowerCase title)

/-- Spec-side slug, following the claim`s words in order: lowercase the
title, then replace each maximal run of whitespace with a single dash. -/
def slug_spec (title : String) : String :=
  replaceWsRuns (jsToLowerCase title)

/-- Spec-side version choice as amended: the metadata version field when
present and non-empty, the string "latest" otherwise. -/
def versionOrLatest_amended : Option String → String
  | none => "latest"
  | some v => if v = "" then "latest" else v

/-- Amended image-tag formula of claim C9. -/
def imageTag_amended (title : String) (version : Option String) : String :=
  "training/" ++ slug_spec title ++ ":" ++ versionOrLatest_amended version

/-- JavaScript `metadata.version || 'latest'`: absent or empty (falsy)
yields the default. -/
def jsOrLatest : Option String → String
  | none => "latest"
  | some v => if v = "" then "latest" else v

/-- Spec-side version choice, following the claim`s words: the metadata
version field when present, the string "latest" otherwise. -/
def versionOrLatest_claim : Option String → String
  | none => "latest"
  | some v => v

/-- Spec-side image tag formula of claim C9, built from the claim`s slug
and version wording. -/
def imageTag_claim (title : String) (version : Option String) : String :=
  "training/" ++ slug_spec title ++ ":" ++ versionOrLatest_claim version

/-- Typed validation failures of the upload route; each is thrown as an
Error and answered with HTTP 400 by the route`s catch block. -/
inductive UploadErr where
  | missingTitle
  | missingDescription
  | missingLevel
  | invalidLevel
  deriving DecidableEq, Repr

/-- Payload recorded for an accepted bundle: the docker_images row fields
and the derived image tag. -/
structure AcceptedBundle where
  name : String
  version : String
  levelValue : String
  tag : String
  deriving DecidableEq, Repr

/-- Metadata validation and tag derivation of POST /api/exercises/upload
(src, unnamed exercises-router file, lines 173-196): require truthy title,
description and level, lowercase the level and compare against validLevels,
then derive `training/<slug(title)>:<version or latest>`. -/
def validateAndTag (m : Metadata) : Except UploadErr AcceptedBundle :=
  if jsTruthy m.title = false then Except.error UploadErr.missingTitle
  else if jsTruthy m.description = false then Except.error UploadErr.missingDescription
  else if jsTruthy m.level = false then Except.error UploadErr.missingLevel
  else if decide (jsToLowerCase (m.level.getD "") ∈ validLevels) = false then
    Except.error UploadErr.invalidLevel
  else
    Except.ok
      { name := m.title.getD "",
        version := jsOrLatest m.version,
        levelValue := jsToLowerCase (m.level.getD ""),
        tag := "training/" ++ slug (m.title.getD "") ++ ":" ++ jsOrLatest m.version }

/-- HTTP status of the upload route for a given metadata validation
outcome: every thrown validation error is answered with 400. -/
def uploadStatus (m : Metadata) : Nat :=
  match validateAndTag m with
  | Except.ok _ => 200
  | Except.error _ => 400

/-- Concrete state of a subject (user 1) with three running containers for
exercises 1, 2 and 3: exactly at the per-user cap. -/
def st5 : SysState :=
  { registry :=
      [{ container_id := "c5a", image_id := 1, user_id := 1, subdomain := "s5a",
         status := CStatus.running, host_port := "40051", created_at := 0 },
       { container_id := "c5b", image_id := 2, user_id := 1, subdomain := "s5b",
         status := CStatus.running, host_port := "40052", created_at := 0 },
       { container_id := "c5c", image_id := 3, user_id := 1, subdomain := "s5c",
         status := CStatus.running, host_port := "40053", created_at := 0 }],
    progress := [], runtime := ["c5a", "c5b", "c5c"],
    activity := ["s5a", "s5b", "s5c"] }

/-- Concrete state of a subject (user 1) who completed exercise 1 earlier
(progress row completed with a recorded timestamp) and now has nothing
running. -/
def st10 : SysState :=
  { registry := [],
    progress := [{ user_id := 1, image_id := 1, status := PStatus.completed,
                   attempts := 2, completed_at := some 5 }],
    runtime := [], activity := [] }

/-- C1: the claim says the stop procedure sets status to stopped only when
the record is not already completed.  The code runs the UPDATE
unconditionally: evaluating stopContainer on a registry whose single record
is completed yields a record whose status is stopped, so the completed
terminal state regresses.  The spec (design note on force-stop of completed
containers, invariant I5) pins the claimed behaviour as the intent, so this
is a bug in the code. -/
theorem C1_stop_regresses_completed :
    (stopContainer
      { registry := [{ container_id := "c1", image_id := 1, user_id := 1,
                       subdomain := "s1", status := CStatus.completed,
                       host_port := "40001", created_at := 0 }],
        progress := [], runtime := ["c1"], activity := ["s1"] } "c1").registry =
      [{ container_id := "c1", image_id := 1, user_id := 1,
         subdomain := "s1", status := CStatus.stopped,
         host_port := "40001", created_at := 0 }] := by
  rfl

/-- C2 counterexample: a registry with a single running record whose
runtime container is missing is returned unchanged by one reconciliation
run; the status stays running, not stopped as the claim states. -/
theorem C2_counterexample :
    ((cleanupResources
      { registry := [{ container_id := "c2", image_id := 1, user_id := 1,
                       subdomain := "s2", status := CStatus.running,
                       host_port := "40002", created_at := 0 }],
        progress := [], runtime := [], activity := [] }
      1000000000000).registry.map ContainerRecord.status = [CStatus.running]) ∧
    CStatus.running ≠ CStatus.stopped := by
  exact ⟨rfl, by decide⟩

/-- C2 (amended): a reconciliation pass never touches registry rows marked
running; any running record, with or without a runtime container, survives
cleanupResources unchanged, so invariant I4 is not repaired. -/
theorem C2_cleanup_preserves_running (s : SysState) (now : Nat)
    (r : ContainerRecord) (hmem : r ∈ s.registry)
    (hrun : r.status = CStatus.running) :
    r ∈ (cleanupResources s now).registry := by
  simp [cleanupResources, List.mem_filter, hmem, hrun]

/-- C2 witness: the amended theorem applied to a concrete running record
with no runtime container. -/
theorem C2_cleanup_preserves_running_witness :
    ({ container_id := "c2", image_id := 1, user_id := 1, subdomain := "s2",
       status := CStatus.running, host_port := "40002",
       created_at := 0 } : ContainerRecord) ∈
      ([{ container_id := "c2", image_id := 1, user_id := 1, subdomain := "s2",
          status := CStatus.running, host_port := "40002",
          created_at := 0 }] : List ContainerRecord) ∧
    ({ container_id := "c2", image_id := 1, user_id := 1, subdomain := "s2",
       status := CStatus.running, host_port := "40002",
       created_at := 0 } : ContainerRecord).status = CStatus.running ∧
    ({ container_id := "c2", image_id := 1, user_id := 1, subdomain := "s2",
       status := CStatus.running, host_port := "40002",
       created_at := 0 } : ContainerRecord) ∈
      (cleanupResources
        { registry := [{ container_id := "c2", image_id := 1, user_id := 1,
                         subdomain := "s2", status := CStatus.running,
                         host_port := "40002", created_at := 0 }],
          progress := [], runtime := [], activity := [] }
        1000000000000).registry := by
  refine ⟨by decide, by decide, ?_⟩
  exact C2_cleanup_preserves_running _ 1000000000000 _ (by decide) (by decide)

/-- C3 counterexample: with the runtime create succeeding and the registry
INSERT failing, createContainer returns the insert error while the new
runtime container is still present (runtime list holds it) and no registry
row exists; the container is not stopped and removed as the claim states. -/
theorem C3_counterexample :
    createContainer { registry := [], progress := [], runtime := [], activity := [] }
        1 1 true "c3" "s3" "40003" false 0 =
      ({ registry := [], progress := [], runtime := ["c3"], activity := [] },
        Except.error CreateErr.insertFailed) := by
  rfl

/-- C3 (amended): when the runtime create succeeds but the registry INSERT
fails, the error propagates with the runtime container left in place and the
registry unchanged; a later reconciliation run removes the orphan. -/
theorem C3_insert_failure_leaves_orphan (s : SysState) (imageId userId : Nat)
    (cid sub hp : String) (now now2 : Nat)
    (hfresh : s.registry.find? (fun r => decide (r.container_id = cid)) = none) :
    (createContainer s imageId userId true cid sub hp false now).2 =
        Except.error CreateErr.insertFailed ∧
    (createContainer s imageId userId true cid sub hp false now).1.registry =
        s.registry ∧
    (createContainer s imageId userId true cid sub hp false now).1.runtime =
        s.runtime ++ [cid] ∧
    cid ∉ (cleanupResources
        (createContainer s imageId userId true cid sub hp false now).1 now2).runtime := by
  refine ⟨rfl, rfl, rfl, ?_⟩
  simp [createContainer, cleanupResources, List.mem_filter, hfresh]

/-- C3 witness: the amended theorem applied to the empty state. -/
theorem C3_insert_failure_leaves_orphan_witness :
    (({ registry := [], progress := [], runtime := [], activity := [] } : SysState).registry.find?
        (fun r => decide (r.container_id = "c3")) = none) ∧
    (createContainer { registry := [], progress := [], runtime := [], activity := [] }
        1 1 true "c3" "s3" "40003" false 0).2 = Except.error CreateErr.insertFailed ∧
    (createContainer { registry := [], progress := [], runtime := [], activity := [] }
        1 1 true "c3" "s3" "40003" false 0).1.registry = [] ∧
    (createContainer { registry := [], progress := [], runtime := [], activity := [] }
        1 1 true "c3" "s3" "40003" false 0).1.runtime = [] ++ ["c3"] ∧
    "c3" ∉ (cleanupResources
        (createContainer { registry := [], progress := [], runtime := [], activity := [] }
          1 1 true "c3" "s3" "40003" false 0).1 999).runtime := by
  exact ⟨rfl, C3_insert_failure_leaves_orphan _ 1 1 "c3" "s3" "40003" 0 999 rfl⟩

/-- C4 counterexample: completing an unknown subdomain answers HTTP 500,
not the claimed 404; the state is unchanged. -/
theorem C4_counterexample :
    completeRoute { registry := [], progress := [], runtime := [], activity := [] }
        "s4" 0 =
      ({ registry := [], progress := [], runtime := [], activity := [] }, 500) ∧
    (500 : Nat) ≠ 404 := by
  exact ⟨rfl, by decide⟩

/-- C4 (amended): when no container record carries the requested subdomain,
the completion route answers HTTP 500 (the generic catch) and leaves the
registry and progress state untouched. -/
theorem C4_complete_unknown_subdomain (s : SysState) (sub : String) (now : Nat)
    (h : s.registry.find? (fun r => decide (r.subdomain = sub)) = none) :
    completeRoute s sub now = (s, 500) := by
  simp [completeRoute, handleExerciseCompletion, h]

/-- C4 witness: the amended theorem applied to the empty registry. -/
theorem C4_complete_unknown_subdomain_witness :
    (({ registry := [], progress := [], runtime := [], activity := [] } : SysState).registry.find?
        (fun r => decide (r.subdomain = "s4")) = none) ∧
    completeRoute { registry := [], progress := [], runtime := [], activity := [] } "s4" 7 =
      ({ registry := [], progress := [], runtime := [], activity := [] }, 500) := by
  exact ⟨rfl, C4_complete_unknown_subdomain _ "s4" 7 rfl⟩

/-- C5 counterexample: a subject with three running containers (exercises
1, 2, 3) launching exercise 1 again is denied with AlreadyRunning, not
with QuotaExceeded as the claim states for every launch at quota. -/
theorem C5_counterexample :
    (launchRoute st5 1 1 true "c5d" "s5d" "40054" true 0).2 =
      LaunchResp.alreadyRunning "c5a" ("s5a" ++ BASE_DOMAIN) ∧
    LaunchResp.alreadyRunning "c5a" ("s5a" ++ BASE_DOMAIN) ≠
      LaunchResp.quotaExceeded := by
  exact ⟨rfl, by decide⟩

/-- C5 (amended): a subject at or above the running-container cap is denied
with QuotaExceeded (HTTP 400) and the state is unchanged whenever no
running record exists for the requested exercise; when such a record
exists, the earlier AlreadyRunning check answers first (also HTTP 400,
state unchanged, echoing the existing subdomain). -/
theorem C5_quota_denial (s : SysState) (u i : Nat) (imageExists : Bool)
    (cid sub hp : String) (insertOk : Bool) (now : Nat)
    (hquota : MAX_PER_USER ≤ (s.registry.filter (fun r =>
      decide (r.user_id = u ∧ r.status = CStatus.running))).length) :
    ((s.registry.find? (fun r =>
        decide (r.user_id = u ∧ r.image_id = i ∧ r.status = CStatus.running)) = none →
      launchRoute s u i imageExists cid sub hp insertOk now =
        (s, LaunchResp.quotaExceeded) ∧
      launchStatus LaunchResp.quotaExceeded = 400) ∧
     (∀ r0, s.registry.find? (fun r =>
        decide (r.user_id = u ∧ r.image_id = i ∧ r.status = CStatus.running)) = some r0 →
      launchRoute s u i imageExists cid sub hp insertOk now =
        (s, LaunchResp.alreadyRunning r0.container_id (r0.subdomain ++ BASE_DOMAIN)) ∧
      launchStatus (LaunchResp.alreadyRunning r0.container_id
        (r0.subdomain ++ BASE_DOMAIN)) = 400)) := by
  constructor
  · intro hnone
    refine ⟨?_, rfl⟩
    unfold launchRoute
    rw [hnone, if_pos hquota]
  · intro r0 hsome
    refine ⟨?_, rfl⟩
    unfold launchRoute
    rw [hsome]

/-- C5 witness: the amended theorem applied to a subject with three running
containers requesting a fourth, distinct exercise. -/
theorem C5_quota_denial_witness :
    (MAX_PER_USER ≤ (st5.registry.filter (fun r =>
      decide (r.user_id = 1 ∧ r.status = CStatus.running))).length) ∧
    (st5.registry.find? (fun r =>
      decide (r.user_id = 1 ∧ r.image_id = 4 ∧ r.status = CStatus.running)) = none) ∧
    launchRoute st5 1 4 true "c5d" "s5d" "40054" true 0 =
      (st5, LaunchResp.quotaExceeded) := by
  refine ⟨by decide, by decide, ?_⟩
  exact ((C5_quota_denial st5 1 4 true "c5d" "s5d" "40054" true 0 (by decide)).1 rfl).1

/-- C10: on every successful launch the exercise_progress row of the
(user, exercise) pair is wholly replaced via INSERT OR REPLACE: attempts
becomes the previous attempts plus one (1 when no row existed), status
becomes in_progress, and completed_at is reset to NULL, so an earlier
completion timestamp is lost on relaunch. -/
theorem C10_launch_replaces_progress (s : SysState) (u i : Nat)
    (cid sub hp : String) (now : Nat)
    (hnorun : s.registry.find? (fun r =>
      decide (r.user_id = u ∧ r.image_id = i ∧ r.status = CStatus.running)) = none)
    (hquota : (s.registry.filter (fun r =>
      decide (r.user_id = u ∧ r.status = CStatus.running))).length < MAX_PER_USER) :
    (launchRoute s u i true cid sub hp true now).2 =
      LaunchResp.launched cid (sub ++ BASE_DOMAIN) ∧
    (launchRoute s u i true cid sub hp true now).1.progress.find?
        (fun p => decide (p.user_id = u ∧ p.image_id = i)) =
      some { user_id := u, image_id := i, status := PStatus.in_progress,
             attempts :=
               match s.progress.find?
                   (fun p => decide (p.user_id = u ∧ p.image_id = i)) with
               | some p => p.attempts + 1
               | none => 1,
             completed_at := none } := by
  have hq : ¬ MAX_PER_USER ≤ (s.registry.filter (fun r =>
      decide (r.user_id = u ∧ r.status = CStatus.running))).length :=
    Nat.not_le.mpr hquota
  have hfilter : (s.progress.filter
      (fun p => decide (¬ (p.user_id = u ∧ p.image_id = i)))).find?
      (fun p => decide (p.user_id = u ∧ p.image_id = i)) = none := by
    rw [List.find?_filter]
    apply List.find?_eq_none.mpr
    intro x _
    by_cases hx : x.user_id = u ∧ x.image_id = i <;> simp [hx]
  constructor
  · unfold launchRoute
    rw [hnorun, if_neg hq]
    rfl
  · unfold launchRoute
    rw [hnorun, if_neg hq]
    show (upsertProgress s.progress u i).find? _ = _
    unfold upsertProgress
    rw [List.find?_append, hfilter]
    simp

/-- C10 witness: relaunching a completed exercise (previous attempts 2,
completed_at recorded) yields a progress row with attempts 3, status
in_progress and no completion timestamp. -/
theorem C10_launch_replaces_progress_witness :
    (st10.registry.find? (fun r =>
      decide (r.user_id = 1 ∧ r.image_id = 1 ∧ r.status = CStatus.running)) = none) ∧
    ((st10.registry.filter (fun r =>
      decide (r.user_id = 1 ∧ r.status = CStatus.running))).length < MAX_PER_USER) ∧
    (launchRoute st10 1 1 true "c10" "s10" "40100" true 9).2 =
      LaunchResp.launched "c10" ("s10" ++ BASE_DOMAIN) ∧
    (launchRoute st10 1 1 true "c10" "s10" "40100" true 9).1.progress.find?
        (fun p => decide (p.user_id = 1 ∧ p.image_id = 1)) =
      some { user_id := 1, image_id := 1, status := PStatus.in_progress,
             attempts := 3, completed_at := none } := by
  refine ⟨rfl, by decide, ?_⟩
  exact C10_launch_replaces_progress st10 1 1 "c10" "s10" "40100" 9 rfl (by decide)

/-- C6 counterexample: a hostname whose leftmost label is a version-1 UUID
(not a UUIDv4) with three labels is not passed through to the main
application as the claim states; the handler answers 404 with the
not-found body. -/
theorem C6_counterexample :
    isUUIDv4 "00000000-0000-1000-8000-000000000000" = false ∧
    subdomainHandler { registry := [], progress := [], runtime := [], activity := [] }
        "00000000-0000-1000-8000-000000000000.training.example" =
      RouteOutcome.notFound "00000000-0000-1000-8000-000000000000" := by
  exact ⟨by decide, by decide⟩

/-- C6 (amended): the handler validates the leftmost label with the uuid
package validator, which accepts any RFC 4122 UUID of versions 1-5 and the
nil UUID, not only UUIDv4.  For a hostname with at least three labels whose
leftmost label passes that validator and matches no running record, the
response is the 404 not-found body with the subdomain; hostnames with
fewer than three labels, or whose leftmost label fails the validator, pass
through to the main application unmodified. -/
theorem C6_subdomain_routing (s : SysState) (h : String) :
    ((∀ sub, extractSubdomain h = some sub → validateUUID sub = true →
        s.registry.find? (fun r =>
          decide (r.subdomain = sub ∧ r.status = CStatus.running)) = none →
        subdomainHandler s h = RouteOutcome.notFound sub) ∧
     (extractSubdomain h = none → subdomainHandler s h = RouteOutcome.next) ∧
     (∀ sub, extractSubdomain h = some sub → validateUUID sub = false →
        subdomainHandler s h = RouteOutcome.next)) := by
  refine ⟨?_, ?_, ?_⟩
  · intro sub hsub hvalid hfind
    unfold subdomainHandler
    rw [hsub]
    show (if validateUUID sub = false then RouteOutcome.next
          else
            match s.registry.find? (fun r =>
                decide (r.subdomain = sub ∧ r.status = CStatus.running)) with
            | none => RouteOutcome.notFound sub
            | some c => RouteOutcome.proxy ("http://localhost:" ++ c.host_port)) =
        RouteOutcome.notFound sub
    rw [hvalid, if_neg (show ¬ ((true : Bool) = false) by decide), hfind]
  · intro hnone
    unfold subdomainHandler
    rw [hnone]
  · intro sub hsub hinvalid
    unfold subdomainHandler
    rw [hsub]
    show (if validateUUID sub = false then RouteOutcome.next
          else
            match s.registry.find? (fun r =>
                decide (r.subdomain = sub ∧ r.status = CStatus.running)) with
            | none => RouteOutcome.notFound sub
            | some c => RouteOutcome.proxy ("http://localhost:" ++ c.host_port)) =
        RouteOutcome.next
    rw [hinvalid, if_pos rfl]

/-- C6 witness: the amended theorem applied to a hostname carrying a
version-4 UUID label with no running record. -/
theorem C6_subdomain_routing_witness :
    (extractSubdomain "aaaaaaaa-aaaa-4aaa-8aaa-aaaaaaaaaaaa.training.example" =
      some "aaaaaaaa-aaaa-4aaa-8aaa-aaaaaaaaaaaa") ∧
    validateUUID "aaaaaaaa-aaaa-4aaa-8aaa-aaaaaaaaaaaa" = true ∧
    (({ registry := [], progress := [], runtime := [], activity := [] } : SysState).registry.find?
      (fun r => decide (r.subdomain = "aaaaaaaa-aaaa-4aaa-8aaa-aaaaaaaaaaaa" ∧
        r.status = CStatus.running)) = none) ∧
    subdomainHandler { registry := [], progress := [], runtime := [], activity := [] }
        "aaaaaaaa-aaaa-4aaa-8aaa-aaaaaaaaaaaa.training.example" =
      RouteOutcome.notFound "aaaaaaaa-aaaa-4aaa-8aaa-aaaaaaaaaaaa" := by
  refine ⟨by decide, by decide, rfl, ?_⟩
  exact (C6_subdomain_routing
      { registry := [], progress := [], runtime := [], activity := [] }
      "aaaaaaaa-aaaa-4aaa-8aaa-aaaaaaaaaaaa.training.example").1
    "aaaaaaaa-aaaa-4aaa-8aaa-aaaaaaaaaaaa" (by decide) (by decide) rfl

/-- C8: with title and description present, bundle validation accepts a
metadata level exactly when its lowercased form is one of beginner,
intermediate, advanced, and any other value is rejected with an HTTP 400
InvalidBundle response. -/
theorem C8_level_case_insensitive (m : Metadata)
    (htitle : jsTruthy m.title = true) (hdesc : jsTruthy m.description = true) :
    ((∃ b, validateAndTag m = Except.ok b) ↔
      jsToLowerCase (m.level.getD "") ∈ validLevels) ∧
    (jsToLowerCase (m.level.getD "") ∉ validLevels → uploadStatus m = 400) := by
  constructor
  · constructor
    · rintro ⟨b, hb⟩
      unfold validateAndTag at hb
      rw [htitle, hdesc] at hb
      by_cases hlev : jsTruthy m.level = true
      · rw [hlev] at hb
        by_cases hmem : jsToLowerCase (m.level.getD "") ∈ validLevels
        · exact hmem
        · rw [decide_eq_false hmem] at hb
          simp at hb
      · rw [Bool.not_eq_true] at hlev
        rw [hlev] at hb
        simp at hb
    · intro hmem
      have hlev : jsTruthy m.level = true := by
        cases hm : m.level with
        | none =>
            rw [hm] at hmem
            simp [jsToLowerCase, validLevels] at hmem
        | some v =>
            cases hv : decide (v = "") with
            | true =>
                have hv' : v = "" := of_decide_eq_true hv
                rw [hm, hv'] at hmem
                simp [jsToLowerCase, validLevels] at hmem
            | false =>
                simp [jsTruthy, hm, of_decide_eq_false hv]
      have hok : validateAndTag m = Except.ok
          { name := m.title.getD "",
            version := jsOrLatest m.version,
            levelValue := jsToLowerCase (m.level.getD ""),
            tag := "training/" ++ slug (m.title.getD "") ++ ":" ++ jsOrLatest m.version } := by
        unfold validateAndTag
        rw [htitle, hdesc, hlev, decide_eq_true hmem]
        rfl
      exact ⟨_, hok⟩
  · intro hmem
    unfold uploadStatus validateAndTag
    rw [htitle, hdesc]
    cases hlev : jsTruthy m.level with
    | false => rfl
    | true =>
        rw [decide_eq_false hmem]
        rfl

/-- C8 witness: with title and description present, an uppercase level
BEGINNER is accepted, and the theorem instance also certifies the rejection
bound for the same metadata. -/
theorem C8_level_case_insensitive_witness :
    jsTruthy (some "SQL 101") = true ∧
    jsTruthy (some "Intro") = true ∧
    (((∃ b, validateAndTag
        { title := some "SQL 101", description := some "Intro",
          level := some "BEGINNER", version := none } = Except.ok b) ↔
      jsToLowerCase ((some "BEGINNER").getD "") ∈ validLevels) ∧
     (jsToLowerCase ((some "BEGINNER").getD "") ∉ validLevels →
      uploadStatus
        { title := some "SQL 101", description := some "Intro",
          level := some "BEGINNER", version := none } = 400)) := by
  refine ⟨by decide, by decide, ?_⟩
  exact C8_level_case_insensitive
    { title := some "SQL 101", description := some "Intro",
      level := some "BEGINNER", version := none } (by decide) (by decide)

/-- C9 counterexample: for an accepted bundle whose metadata version is the
empty string (present but falsy), the code derives the tag with "latest"
while the claim formula keeps the present version verbatim, yielding a
different tag. -/
theorem C9_counterexample :
    validateAndTag
      { title := some "SQL Injection", description := some "D",
        level := some "beginner", version := some "" } =
      Except.ok
        { name := "SQL Injection", version := "latest",
          levelValue := "beginner", tag := "training/sql-injection:latest" } ∧
    imageTag_claim "SQL Injection" (some "") = "training/sql-injection:" ∧
    ("training/sql-injection:latest" : String) ≠ "training/sql-injection:" := by
  refine ⟨rfl, rfl, by decide⟩

/-- C9 (amended): for every accepted bundle the derived image tag is
training/ followed by the slug of the title (lowercased, maximal whitespace
runs collapsed to single dashes), a colon, and the metadata version when
present and non-empty, the string latest otherwise. -/
theorem C9_image_tag (m : Metadata) (b : AcceptedBundle)
    (hb : validateAndTag m = Except.ok b) :
    b.tag = imageTag_amended (m.title.getD "") m.version := by
  unfold validateAndTag at hb
  split at hb
  · exact absurd hb (by simp)
  · split at hb
    · exact absurd hb (by simp)
    · split at hb
      · exact absurd hb (by simp)
      · split at hb
        · exact absurd hb (by simp)
        · injection hb with hb'
          subst hb'
          show "training/" ++ slug (m.title.getD "") ++ ":" ++ jsOrLatest m.version =
            imageTag_amended (m.title.getD "") m.version
          unfold imageTag_amended slug_spec slug jsOrLatest versionOrLatest_amended
          cases m.version <;> rfl

/-- C9 witness: the amended theorem applied to a bundle with a present,
non-empty version. -/
theorem C9_image_tag_witness :
    validateAndTag
      { title := some "Buffer  Overflow Lab", description := some "D",
        level := some "Advanced", version := some "2.0" } =
      Except.ok
        { name := "Buffer  Overflow Lab", version := "2.0",
          levelValue := "advanced", tag := "training/buffer-overflow-lab:2.0" } ∧
    ("training/buffer-overflow-lab:2.0" : String) =
      imageTag_amended "Buffer  Overflow Lab" (some "2.0") := by
  refine ⟨rfl, ?_⟩
  exact C9_image_tag
    { title := some "Buffer  Overflow Lab", description := some "D",
      level := some "Advanced", version := some "2.0" }
    { name := "Buffer  Overflow Lab", version := "2.0",
      levelValue := "advanced", tag := "training/buffer-overflow-lab:2.0" }
    rfl

/-- Marking the record of a given subdomain completed is idempotent on the
registry: applying the UPDATE map twice equals applying it once. -/
theorem map_completed_idem (lr : List ContainerRecord) (sub : String) :
    ((lr.map (fun r =>
        if r.subdomain = sub then { r with status := CStatus.completed } else r)).map
      (fun r =>
        if r.subdomain = sub then { r with status := CStatus.completed } else r)) =
    lr.map (fun r =>
      if r.subdomain = sub then { r with status := CStatus.completed } else r) := by
  rw [List.map_map]
  have hff : ((fun r : ContainerRecord =>
      if r.subdomain = sub then { r with status := CStatus.completed } else r) ∘
    (fun r : ContainerRecord =>
      if r.subdomain = sub then { r with status := CStatus.completed } else r)) =
    (fun r : ContainerRecord =>
      if r.subdomain = sub then { r with status := CStatus.completed } else r) := by
    funext r
    by_cases hr : r.subdomain = sub
    · show (fun r : ContainerRecord =>
          if r.subdomain = sub then { r with status := CStatus.completed } else r)
        (if r.subdomain = sub then { r with status := CStatus.completed } else r) = _
      rw [if_pos hr]
      exact if_pos hr
    · show (fun r : ContainerRecord =>
          if r.subdomain = sub then { r with status := CStatus.completed } else r)
        (if r.subdomain = sub then { r with status := CStatus.completed } else r) = _
      rw [if_neg hr]
      exact if_neg hr
  rw [hff]

/-- Marking the progress row of a given user and exercise completed at a
later time overwrites the earlier completion mark: composing the two UPDATE
maps equals the later one alone. -/
theorem map_progress_overwrite (lp : List ProgressRow) (u i t1 t2 : Nat) :
    ((lp.map (fun p =>
        if p.user_id = u ∧ p.image_id = i then
          { p with status := PStatus.completed, completed_at := some t1 }
        else p)).map
      (fun p =>
        if p.user_id = u ∧ p.image_id = i then
          { p with status := PStatus.completed, completed_at := some t2 }
        else p)) =
    lp.map (fun p =>
      if p.user_id = u ∧ p.image_id = i then
        { p with status := PStatus.completed, completed_at := some t2 }
      else p) := by
  rw [List.map_map]
  have hgg : ((fun p : ProgressRow =>
      if p.user_id = u ∧ p.image_id = i then
        { p with status := PStatus.completed, completed_at := some t2 }
      else p) ∘
    (fun p : ProgressRow =>
      if p.user_id = u ∧ p.image_id = i then
        { p with status := PStatus.completed, completed_at := some t1 }
      else p)) =
    (fun p : ProgressRow =>
      if p.user_id = u ∧ p.image_id = i then
        { p with status := PStatus.completed, completed_at := some t2 }
      else p) := by
    funext p
    by_cases hp : p.user_id = u ∧ p.image_id = i
    · show (fun p : ProgressRow =>
          if p.user_id = u ∧ p.image_id = i then
            { p with status := PStatus.completed, completed_at := some t2 }
          else p)
        (if p.user_id = u ∧ p.image_id = i then
          { p with status := PStatus.completed, completed_at := some t1 }
        else p) = _
      rw [if_pos hp, if_pos hp]
      exact if_pos hp
    · show (fun p : ProgressRow =>
          if p.user_id = u ∧ p.image_id = i then
            { p with status := PStatus.completed, completed_at := some t2 }
          else p)
        (if p.user_id = u ∧ p.image_id = i then
          { p with status := PStatus.completed, completed_at := some t1 }
        else p) = _
      rw [if_neg hp]
  rw [hgg]

/-- The completion UPDATE on the registry preserves the subdomain of every
record, so the find?-by-subdomain predicate is invariant under it. -/
theorem find?_subdomain_map_completed (lr : List ContainerRecord) (sub : String) :
    (lr.map (fun r =>
        if r.subdomain = sub then { r with status := CStatus.completed } else r)).find?
      (fun r => decide (r.subdomain = sub)) =
    (lr.find? (fun r => decide (r.subdomain = sub))).map (fun r =>
      if r.subdomain = sub then { r with status := CStatus.completed } else r) := by
  rw [List.find?_map]
  have hpf : ((fun r : ContainerRecord => decide (r.subdomain = sub)) ∘
      (fun r : ContainerRecord =>
        if r.subdomain = sub then { r with status := CStatus.completed } else r)) =
    (fun r : ContainerRecord => decide (r.subdomain = sub)) := by
    funext r
    by_cases hr : r.subdomain = sub
    · show decide ((if r.subdomain = sub then
          { r with status := CStatus.completed } else r).subdomain = sub) = _
      rw [if_pos hr]
    · show decide ((if r.subdomain = sub then
          { r with status := CStatus.completed } else r).subdomain = sub) = _
      rw [if_neg hr]
  rw [hpf]

/-- C7: the completion handler is idempotent; a second invocation for the
same subdomain (at any later clock reading) produces exactly the state and
result of a single invocation at that reading, for every state, including
the not-found error path. -/
theorem C7_completion_idempotent (s : SysState) (sub : String) (t1 t2 : Nat) :
    handleExerciseCompletion (handleExerciseCompletion s sub t1).1 sub t2 =
      handleExerciseCompletion s sub t2 := by
  cases h : s.registry.find? (fun r => decide (r.subdomain = sub)) with
  | none =>
      have h1 : handleExerciseCompletion s sub t1 =
          (s, Except.error "Container not found") := by
        unfold handleExerciseCompletion
        rw [h]
      rw [h1]
  | some info =>
      have hsome := List.find?_some h
      have hinfo : info.subdomain = sub := of_decide_eq_true hsome
      have h1 : handleExerciseCompletion s sub t1 =
          ({ s with
             progress := s.progress.map (fun p =>
               if p.user_id = info.user_id ∧ p.image_id = info.image_id then
                 { p with status := PStatus.completed, completed_at := some t1 }
               else p),
             registry := s.registry.map (fun r =>
               if r.subdomain = sub then { r with status := CStatus.completed } else r) },
           Except.ok true) := by
        unfold handleExerciseCompletion
        rw [h]
      have hfind2 : (s.registry.map (fun r =>
          if r.subdomain = sub then { r with status := CStatus.completed } else r)).find?
            (fun r => decide (r.subdomain = sub)) =
          some { info with status := CStatus.completed } := by
        rw [find?_subdomain_map_completed, h, Option.map_some', if_pos hinfo]
      rw [h1]
      unfold handleExerciseCompletion
      rw [hfind2, h]
      show ({ s with
          progress := (s.progress.map (fun p : ProgressRow =>
            if p.user_id = info.user_id ∧ p.image_id = info.image_id then
              { p with status := PStatus.completed, completed_at := some t1 }
            else p)).map (fun p : ProgressRow =>
            if p.user_id = info.user_id ∧ p.image_id = info.image_id then
              { p with status := PStatus.completed, completed_at := some t2 }
            else p),
          registry := (s.registry.map (fun r : ContainerRecord =>
            if r.subdomain = sub then { r with status := CStatus.completed } else r)).map
            (fun r : ContainerRecord =>
              if r.subdomain = sub then { r with status := CStatus.completed } else r) },
        Except.ok true) =
        ({ s with
           progress := s.progress.map (fun p : ProgressRow =>
             if p.user_id = info.user_id ∧ p.image_id = info.image_id then
               { p with status := PStatus.completed, completed_at := some t2 }
             else p),
           registry := s.registry.map (fun r : ContainerRecord =>
             if r.subdomain = sub then { r with status := CStatus.completed } else r) },
         Except.ok true)
      rw [map_completed_idem, map_progress_overwrite]
